import Mathlib

/-!
Verification of the BLOXXER presale server (`src/server.js`) against its
natural-language specification.

The repository file contains two concatenated server variants:
* variant 1 (lines 1-517), the cleaned-up server with a bonding-curve price,
  a per-day price cache and a daily limit;
* variant 2 (lines 518-1148), the older server with a flat `coinPrice`.

Numbers are modelled as exact rationals (the spec mandates exact decimal
quantities for money).  JavaScript coercions are modelled explicitly:
`x || 0` on a number maps only the falsy value 0 (and absent values) to 0,
`a ?? b` maps only absent values, and `Number.isInteger` is the predicate
`den = 1` on rationals.  Absent JSON values (`undefined` / `null` / missing
files) are modelled with `Option`.  NaN does not arise in the modelled
fragment because all inputs are rationals.
-/

namespace Bloxxer

/-- JavaScript `q || 0` on a number: 0 is falsy, everything else is kept. -/
def jsOr0 (q : ℚ) : ℚ := if q = 0 then 0 else q

/-- JavaScript `Number(x) || 0` where `x` may be absent (`undefined` gives NaN,
which is falsy). -/
def optOr0 : Option ℚ → ℚ
  | none => 0
  | some q => jsOr0 q

@[simp] theorem jsOr0_eq (q : ℚ) : jsOr0 q = q := by
  unfold jsOr0; split <;> simp_all

@[simp] theorem optOr0_some (q : ℚ) : optOr0 (some q) = q := by
  simp [optOr0]

@[simp] theorem optOr0_none : optOr0 none = 0 := rfl

/-- JavaScript `Number.prototype.toFixed(2)` followed by `parseFloat`, on an
exact rational: per ECMA-262, the sign is stripped first and the integer `n`
with `n / 100` closest to the magnitude is chosen, ties going to the larger
`n`; `round` (floor of `x + 1/2`) is exactly that tie-break. -/
def toFixed2 (x : ℚ) : ℚ :=
  if x < 0 then -(((round ((-x) * 100) : ℤ) : ℚ) / 100)
  else ((round (x * 100) : ℤ) : ℚ) / 100

/-- JavaScript `toFixed(8)` followed by `parseFloat`, same ECMA-262 rule with
eight fractional digits. -/
def toFixed8 (x : ℚ) : ℚ :=
  if x < 0 then -(((round ((-x) * 100000000) : ℤ) : ℚ) / 100000000)
  else ((round (x * 100000000) : ℤ) : ℚ) / 100000000

/-- Rounding to the nearest integer with ties away from zero, written the way
the specification describes it (round-half-away-from-zero). -/
def roundHalfAwayFromZero (x : ℚ) : ℤ :=
  if 0 ≤ x then ⌊x + 1 / 2⌋ else ⌈x - 1 / 2⌉

/-- The specification notion `round2`: round to exactly two decimal places
using round-half-away-from-zero. -/
def round2 (x : ℚ) : ℚ := ((roundHalfAwayFromZero (x * 100) : ℤ) : ℚ) / 100

theorem toFixed2_eq_round2 (x : ℚ) : toFixed2 x = round2 x := by
  unfold toFixed2 round2 roundHalfAwayFromZero
  rcases lt_or_ge x 0 with h | h
  · have hx : ¬ (0 ≤ x * 100) := by nlinarith
    simp only [if_pos h, if_neg hx]
    rw [round_eq]
    have h1 : -x * 100 + 1 / 2 = -(x * 100 - 1 / 2) := by ring
    rw [h1, Int.floor_neg]
    push_cast
    ring
  · have hx : 0 ≤ x * 100 := by nlinarith
    have hxn : ¬ x < 0 := not_lt.mpr h
    simp only [if_neg hxn, if_pos hx]
    rw [round_eq]

/-- Daily price cache record (`data/priceCache.json`).  The file starts out as
the empty object, modelled as `none` at the `Option PriceCache` use sites. -/
structure PriceCache where
  date : String
  price : ℚ
deriving DecidableEq, Repr

/-- Aggregate statistics (`data/stats.json`).  Field values absent from the
JSON are modelled as the written defaults; `totalPurchases` only ever receives
0 and +1 so it is kept as a natural number. -/
structure SaleStats where
  totalCoinsSold : ℚ
  totalRaisedEur : ℚ
  totalPurchases : ℕ
  lastUpdated : String
deriving DecidableEq, Repr

/-- Variant-1 campaign configuration (`data/config.json`); every field may be
missing, the code applies `??` defaults at each use site.  Instants are
modelled as rational timestamps. -/
structure ConfigV1 where
  fundingGoal : Option ℚ := none
  coinStartPrice : Option ℚ := none
  coinEndPrice : Option ℚ := none
  minimumPurchase : Option ℚ := none
  maximumPurchase : Option ℚ := none
  presaleEndDate : Option ℚ := none
deriving DecidableEq, Repr

/-- A committed ledger record, as built by `savePurchase`. -/
structure Purchase where
  id : String
  walletAddress : Option String
  walletType : String
  buyerEmail : Option String
  coinAmount : ℚ
  totalPrice : ℚ
  paymentMethod : String
  paypalOrderId : Option String
  timestamp : String
  status : String
deriving DecidableEq, Repr

/-- The argument object handed to variant-1 `savePurchase`. -/
structure PurchaseInput where
  id : Option String := none
  walletAddress : Option String := none
  walletType : Option String := none
  buyerEmail : Option String := none
  coinAmount : ℚ := 0
  totalPrice : ℚ := 0
  paymentMethod : Option String := none
  paypalOrderId : Option String := none
  timestamp : Option String := none
  status : Option String := none
deriving DecidableEq, Repr

/-- The pricing quadruple returned by `calculateSellingPrice` (variant 1) and
`calculateCoinPrice` (variant 2). -/
structure Pricing where
  coinAmount : ℚ
  unitPrice : ℚ
  totalPrice : ℚ
  currency : String
deriving DecidableEq, Repr

/-- The variant-1 file store (`data/` directory); every file may be missing or
unreadable, in which case `readJsonFile` yields `null`, modelled as `none`. -/
structure StoreV1 where
  config : Option ConfigV1 := none
  stats : Option SaleStats := none
  purchases : Option (List Purchase) := none
  priceCache : Option PriceCache := none
deriving DecidableEq, Repr

/-- The price-and-store pair written by a cache miss inside
`getCachedPriceOrCalculate`: the bonding-curve formula guarded by
`fundingZiel && fundingZiel > 0`, falling back to the start price. -/
def freshDailyPrice (fundingZiel coinStartpreis coinEndpreis insgesamtVerkauft : ℚ)
    (today : String) : ℚ × Option PriceCache :=
  let finalPrice :=
    if fundingZiel ≠ 0 ∧ 0 < fundingZiel then
      jsOr0 insgesamtVerkauft / fundingZiel * (coinEndpreis - coinStartpreis) + coinStartpreis
    else coinStartpreis
  (finalPrice, some { date := today, price := finalPrice })

/-- `getCachedPriceOrCalculate` (server.js 81-106): return the cached price when
the cache is for today, otherwise compute the bonding-curve price and store it
for today.  The `typeof cache.price === "number"` guard is vacuous in the model
because a parsed cache record always carries a rational price. -/
def getCachedPriceOrCalculate (fundingZiel coinStartpreis coinEndpreis insgesamtVerkauft : ℚ)
    (today : String) (cache : Option PriceCache) : ℚ × Option PriceCache :=
  match cache with
  | some c =>
    if c.date = today then (c.price, some c)
    else freshDailyPrice fundingZiel coinStartpreis coinEndpreis insgesamtVerkauft today
  | none => freshDailyPrice fundingZiel coinStartpreis coinEndpreis insgesamtVerkauft today

/-- `calculateCoinPrice` (variant 1, server.js 108-123): load config and stats
with their documented defaults and delegate to the cached computation, storing
the possibly updated cache. -/
def calculateCoinPriceV1 (st : StoreV1) (today : String) : ℚ × StoreV1 :=
  let config := st.config.getD {}
  let insgesamtVerkauft := match st.stats with
    | some s => s.totalRaisedEur
    | none => 0
  let fundingZiel := config.fundingGoal.getD 1
  let coinStartpreis := config.coinStartPrice.getD 0.025
  let coinEndpreis := config.coinEndPrice.getD 0.1
  let r := getCachedPriceOrCalculate fundingZiel coinStartpreis coinEndpreis
    insgesamtVerkauft today st.priceCache
  (r.1, { st with priceCache := r.2 })

/-- The body of `calculateSellingPrice` (server.js 126-138) after the unit
price has been obtained: coerce the amount, multiply, and format. -/
def sellingPriceOf (unitPrice : ℚ) (coinAmount : Option ℚ) : Pricing :=
  let amount := optOr0 coinAmount
  { coinAmount := if amount.den = 1 then amount else toFixed8 amount
    unitPrice := toFixed8 unitPrice
    totalPrice := toFixed2 (unitPrice * amount)
    currency := "EUR" }

/-- `calculateSellingPrice` (variant 1): compute the unit price (possibly
writing the daily cache) and price the requested amount. -/
def calculateSellingPriceV1 (coinAmount : Option ℚ) (st : StoreV1) (today : String) :
    Pricing × StoreV1 :=
  let r := calculateCoinPriceV1 st today
  (sellingPriceOf r.1 coinAmount, r.2)

/-- JavaScript `s || d` on an optional string: absent and empty strings are
falsy. -/
def jsOrStr (o : Option String) (d : String) : String :=
  match o with
  | none => d
  | some s => if s.length = 0 then d else s

/-- JavaScript `s || null` on an optional string: collapse the falsy empty
string to the absent value. -/
def jsOrNull (o : Option String) : Option String :=
  match o with
  | none => none
  | some s => if s.length = 0 then none else some s

/-- Truthiness of an optional number in a boolean position: absent and 0 are
falsy. -/
def jsFalsyQ : Option ℚ → Bool
  | none => true
  | some q => decide (q = 0)

/-- The `config.maximumPurchase && Number(coinAmount) > config.maximumPurchase`
guard: requires a truthy maximum, and `NaN > m` (absent amount) is false. -/
def overMaximum (coinAmount : Option ℚ) (maximumPurchase : Option ℚ) : Bool :=
  match maximumPurchase with
  | some m => decide (¬ m = 0) && (match coinAmount with
      | some q => decide (m < q)
      | none => false)
  | none => false

/-- The `config.presaleEndDate && new Date() > new Date(...)` guard: a present
end date (date strings are truthy) that lies before the current instant. -/
def presaleOver (presaleEndDate : Option ℚ) (now : ℚ) : Bool :=
  match presaleEndDate with
  | some d => decide (d < now)
  | none => false

/-- `validatePurchase` (variant 1, server.js 141-168): collect all violated
rules (error messages abbreviated to their leading words).  Computing the unit
price may write the daily price cache, so the store is threaded through. -/
def validatePurchaseV1 (coinAmount : Option ℚ) (walletAddress : Option String)
    (st : StoreV1) (today : String) (now : ℚ) : List String × StoreV1 :=
  let config := st.config.getD {}
  let r := calculateCoinPriceV1 st today
  let purchasePrice := optOr0 coinAmount * r.1
  let errors :=
    (if walletAddress = none then ["Wallet-Adresse ist erforderlich"] else []) ++
    (if jsFalsyQ coinAmount ∨ purchasePrice < optOr0 config.minimumPurchase then
      ["Mindestbestellmenge"] else []) ++
    (if overMaximum coinAmount config.maximumPurchase then ["Maximale Bestellmenge"] else []) ++
    (if presaleOver config.presaleEndDate now then ["Presale ist beendet"] else [])
  (errors, r.2)

/-- The statistics defaults used when `data/stats.json` is missing
(`updateStats`, server.js 172-177). -/
def initStats (nowISO : String) : SaleStats :=
  { totalCoinsSold := 0, totalRaisedEur := 0, totalPurchases := 0, lastUpdated := nowISO }

/-- The read-modify-write applied to the statistics by `updateStats`
(server.js 179-182). -/
def bumpStats (stats : SaleStats) (coinAmount totalPrice : ℚ) (nowISO : String) : SaleStats :=
  { stats with
    totalCoinsSold := jsOr0 stats.totalCoinsSold + jsOr0 coinAmount
    totalRaisedEur := jsOr0 stats.totalRaisedEur + jsOr0 totalPrice
    totalPurchases := stats.totalPurchases + 1
    lastUpdated := nowISO }

/-- `updateStats` (variant 1, server.js 171-186). -/
def updateStatsV1 (coinAmount totalPrice : ℚ) (st : StoreV1) (nowISO : String) : StoreV1 :=
  let stats := st.stats.getD (initStats nowISO)
  { st with stats := some (bumpStats stats coinAmount totalPrice nowISO) }

/-- The ledger record built by variant-1 `savePurchase` (server.js 195-206);
`generateId` is modelled by the explicit fresh identifier argument, and the
current instant by its ISO rendering `nowISO`. -/
def mkNewPurchase (input : PurchaseInput) (nowISO freshId : String) : Purchase :=
  { id := input.id.getD freshId
    walletAddress := input.walletAddress
    walletType := input.walletType.getD "unknown"
    buyerEmail := input.buyerEmail
    coinAmount := jsOr0 input.coinAmount
    totalPrice := jsOr0 input.totalPrice
    paymentMethod := input.paymentMethod.getD "unknown"
    paypalOrderId := input.paypalOrderId
    timestamp := input.timestamp.getD nowISO
    status := input.status.getD "completed" }

/-- `savePurchase` (variant 1, server.js 189-215): append the record to the
ledger, then update the statistics centrally. -/
def savePurchaseV1 (input : PurchaseInput) (st : StoreV1) (nowISO freshId : String) :
    StoreV1 × Purchase :=
  let purchases := st.purchases.getD []
  let newPurchase := mkNewPurchase input nowISO freshId
  let st1 := { st with purchases := some (purchases ++ [newPurchase]) }
  (updateStatsV1 newPurchase.coinAmount newPurchase.totalPrice st1 nowISO, newPurchase)

/-- `checkDailyLimit` (server.js 218-229): sum the totals of ledger entries
whose ISO timestamp starts with the day string used by the pricing engine
(`getISODate`), and admit the candidate only when the sum stays within the
fixed 500000 cap.  Returns `(allowed, dailyTotal)`. -/
def checkDailyLimit (totalPrice : ℚ) (st : StoreV1) (today : String) : Bool × ℚ :=
  let purchases := st.purchases.getD []
  let todaysPurchases := purchases.filter (fun p => today.data.isPrefixOf p.timestamp.data)
  let dailyTotal := todaysPurchases.foldl (fun sum p => sum + jsOr0 p.totalPrice) 0
  (decide (dailyTotal + jsOr0 totalPrice ≤ 500000), dailyTotal)

/-- `processPurchase` (variant 1, server.js 232-266): validate, price, save.
Returns the updated store, the saved record and the pricing on success, or the
joined validation errors. -/
def processPurchaseV1 (wallet_address : Option String) (coin_amount : Option ℚ)
    (payment_method : Option String) (buyer_email wallet_type paypal_order_id : Option String)
    (st : StoreV1) (today : String) (now : ℚ) (nowISO freshId : String) :
    Except String (StoreV1 × Purchase × Pricing) :=
  let v := validatePurchaseV1 coin_amount wallet_address st today now
  if v.1.isEmpty then
    let r := calculateSellingPriceV1 coin_amount v.2 today
    let pricing := r.1
    let s := savePurchaseV1
      { walletAddress := wallet_address
        walletType := some (jsOrStr wallet_type "unknown")
        buyerEmail := jsOrNull buyer_email
        coinAmount := pricing.coinAmount
        totalPrice := pricing.totalPrice
        paymentMethod := payment_method
        paypalOrderId := jsOrNull paypal_order_id } r.2 nowISO freshId
    .ok (s.1, s.2, pricing)
  else .error (String.intercalate ", " v.1)

/-- One purchase unit of a parsed capture response.  `payments` records the
truthiness of the `payments` object; `customId` / `custom_id` hold the integer
content of the metadata string written at order creation (`String(coinAmount)`),
`none` when the field is absent. -/
structure CapturedUnit where
  payments : Bool := false
  customId : Option ℤ := none
  custom_id : Option ℤ := none
deriving DecidableEq, Repr

/-- A parsed capture response from the payment gateway adapter. -/
structure CaptureResponse where
  status : Option String := none
  purchaseUnits : List CapturedUnit := []
  purchase_units : List CapturedUnit := []
deriving DecidableEq, Repr

/-- Truthiness of `units[0]?.payments`. -/
def hasPayments (units : List CapturedUnit) : Bool :=
  match units.head? with
  | some u => u.payments
  | none => false

/-- The status derivation of the variant-1 capture route (server.js 423-426):
the reported `status`, or else "COMPLETED" whenever the first purchase unit of
either casing carries a payments object. -/
def deriveStatus (captured : CaptureResponse) : Option String :=
  match captured.status with
  | some s => some s
  | none =>
    if hasPayments captured.purchaseUnits then some "COMPLETED"
    else if hasPayments captured.purchase_units then some "COMPLETED"
    else none

/-- The metadata recovery of the variant-1 capture route (server.js 432-439):
first purchase unit of either casing, `customId` before `custom_id`. -/
def recoverCoinAmount (captured : CaptureResponse) : Option ℤ :=
  let pu := match captured.purchaseUnits.head? with
    | some u => some u
    | none => captured.purchase_units.head?
  match pu with
  | some u =>
    match u.customId with
    | some n => some n
    | none => u.custom_id
  | none => none

/-- The JSON body of a capture request.  The handler of variant 1 destructures
only the first four fields; `coin_amount` is carried in the model so that
independence from a client-supplied amount can be stated. -/
structure CaptureBody where
  paypal_order_id : Option String := none
  wallet_address : Option String := none
  wallet_type : Option String := none
  buyer_email : Option String := none
  coin_amount : Option ℤ := none
deriving DecidableEq, Repr

/-- The variant-1 `POST /api/paypal/capture-order` route (server.js 413-466)
after the adapter call: check the derived status against the success sentinel,
recover the coin amount from the order metadata, and run the purchase flow.
Error responses of every kind are collapsed into `Except.error`. -/
def captureOrderV1 (body : CaptureBody) (captured : CaptureResponse) (st : StoreV1)
    (today : String) (now : ℚ) (nowISO freshId : String) :
    Except String (StoreV1 × Purchase) :=
  match body.paypal_order_id with
  | none => .error "paypal_order_id required"
  | some orderId =>
    if deriveStatus captured = some "COMPLETED" then
      match recoverCoinAmount captured with
      | some n =>
        if n = 0 then .error "Coin-Menge konnte nicht ermittelt werden"
        else
          match processPurchaseV1 body.wallet_address (some (n : ℚ)) (some "paypal")
              body.buyer_email body.wallet_type (some orderId) st today now nowISO freshId with
          | .ok r => .ok (r.1, r.2.1)
          | .error e => .error e
      | none => .error "Coin-Menge konnte nicht ermittelt werden"
    else .error "PayPal-Zahlung nicht abgeschlossen"

/-! ## Variant 2 (server.js 518-1148): the older server with a flat coin price -/

/-- Variant-2 configuration: a flat `coinPrice` and mandatory bounds; the
route-level `getCurrentConfig` throws when the file is missing. -/
structure ConfigV2 where
  coinPrice : ℚ
  presaleEndDate : ℚ
  minimumPurchase : ℚ
  maximumPurchase : ℚ
deriving DecidableEq, Repr

/-- The variant-2 file store. -/
structure StoreV2 where
  config : Option ConfigV2 := none
  stats : Option SaleStats := none
  purchases : Option (List Purchase) := none
deriving DecidableEq, Repr

/-- `calculateCoinPrice` (variant 2, server.js 624-634): flat unit price from
the configuration, total rounded with `toFixed(2)`. -/
def calculateCoinPriceV2 (coinAmount : ℤ) (config : ConfigV2) : Pricing :=
  { coinAmount := (coinAmount : ℚ)
    unitPrice := config.coinPrice
    totalPrice := toFixed2 ((coinAmount : ℚ) * config.coinPrice)
    currency := "EUR" }

/-- `validatePurchase` (variant 2, server.js 637-663). -/
def validatePurchaseV2 (coinAmount : ℤ) (walletAddress : Option String)
    (config : ConfigV2) (now : ℚ) : List String :=
  (if walletAddress = none then ["Wallet-Adresse ist erforderlich"] else []) ++
  (if coinAmount = 0 ∨ (coinAmount : ℚ) < config.minimumPurchase then
    ["Mindestbestellmenge"] else []) ++
  (if config.maximumPurchase < (coinAmount : ℚ) then ["Maximale Bestellmenge"] else []) ++
  (if config.presaleEndDate < now then ["Presale ist beendet"] else [])

/-- The spread purchase data handed to variant-2 `savePurchase`. -/
structure PurchaseDataV2 where
  walletAddress : Option String
  walletType : String
  buyerEmail : Option String
  coinAmount : ℚ
  totalPrice : ℚ
  paymentMethod : String
  paypalOrderId : Option String
deriving DecidableEq, Repr

/-- `savePurchase` (variant 2, server.js 681-699): append only; statistics are
updated separately by `processPurchase`. -/
def savePurchaseV2 (d : PurchaseDataV2) (st : StoreV2) (nowISO freshId : String) :
    StoreV2 × Purchase :=
  let purchases := st.purchases.getD []
  let newPurchase : Purchase :=
    { id := freshId
      walletAddress := d.walletAddress
      walletType := d.walletType
      buyerEmail := d.buyerEmail
      coinAmount := d.coinAmount
      totalPrice := d.totalPrice
      paymentMethod := d.paymentMethod
      paypalOrderId := d.paypalOrderId
      timestamp := nowISO
      status := "completed" }
  ({ st with purchases := some (purchases ++ [newPurchase]) }, newPurchase)

/-- `updateStats` (variant 2, server.js 666-678): a no-op when the statistics
file is missing. -/
def updateStatsV2 (coinAmount totalPrice : ℚ) (st : StoreV2) (nowISO : String) : StoreV2 :=
  match st.stats with
  | some stats =>
    let stats1 : SaleStats :=
      { stats with
        totalCoinsSold := stats.totalCoinsSold + coinAmount
        totalRaisedEur := stats.totalRaisedEur + totalPrice
        totalPurchases := stats.totalPurchases + 1
        lastUpdated := nowISO }
    { st with stats := some stats1 }
  | none => st

/-- `processPurchase` (variant 2, server.js 702-732): validate, price with the
flat unit price, save, update statistics. -/
def processPurchaseV2 (wallet_address : Option String) (coin_amount : ℤ)
    (payment_method : String) (buyer_email wallet_type : Option String)
    (paypal_order_id : Option String) (st : StoreV2) (now : ℚ) (nowISO freshId : String) :
    Except String (StoreV2 × Purchase × Pricing) :=
  match st.config with
  | none => .error "Konfiguration nicht verfügbar"
  | some config =>
    let errors := validatePurchaseV2 coin_amount wallet_address config now
    if errors.isEmpty then
      let pricing := calculateCoinPriceV2 coin_amount config
      let s := savePurchaseV2
        { walletAddress := wallet_address
          walletType := jsOrStr wallet_type "unknown"
          buyerEmail := jsOrNull buyer_email
          coinAmount := pricing.coinAmount
          totalPrice := pricing.totalPrice
          paymentMethod := payment_method
          paypalOrderId := jsOrNull paypal_order_id } st nowISO freshId
      .ok (updateStatsV2 pricing.coinAmount pricing.totalPrice s.1 nowISO, s.2, pricing)
    else .error (String.intercalate ", " errors)

/-- The variant-2 `POST /api/paypal/capture-order` route (server.js 1009-1068)
after the adapter call: requires HTTP 201 and the exact "COMPLETED" status,
then processes the purchase with `parseInt(coin_amount)` taken from the client
request body. -/
def captureOrderV2 (body : CaptureBody) (jsonResponse : CaptureResponse)
    (httpStatusCode : ℕ) (st : StoreV2) (now : ℚ) (nowISO freshId : String) :
    Except String (StoreV2 × Purchase) :=
  match body.paypal_order_id, body.wallet_address, body.coin_amount with
  | some orderId, some w, some n =>
    if n = 0 then .error "Fehlende erforderliche Felder"
    else if httpStatusCode = 201 ∧ jsonResponse.status = some "COMPLETED" then
      match processPurchaseV2 (some w) n "paypal" body.buyer_email body.wallet_type
          (some orderId) st now nowISO freshId with
      | .ok r => .ok (r.1, r.2.1)
      | .error e => .error e
    else .error "PayPal-Zahlung konnte nicht abgeschlossen werden"
  | _, _, _ => .error "Fehlende erforderliche Felder"

/-! ## Commit execution models

`savePurchase` (variant 1) performs four separate awaited file operations:
read the ledger, write the appended ledger, read the statistics, write the
bumped statistics.  `runSequential` runs whole commits back to back;
`stepCommit`/`runSchedule` expose the four operations as atomic steps of a
process so that interleavings of two concurrent requests can be examined. -/

/-- Run a list of variant-1 `savePurchase` commits to completion, one after the
other. -/
def runSequential (inputs : List PurchaseInput) (st : StoreV1) (nowISO freshId : String) :
    StoreV1 :=
  inputs.foldl (fun s i => (savePurchaseV1 i s nowISO freshId).1) st

/-- An in-flight `savePurchase` commit: its input, its request-scoped instant
and fresh identifier, a program counter over the four file operations, and the
local values read so far. -/
structure CommitProc where
  input : PurchaseInput
  nowISO : String
  freshId : String
  pc : ℕ := 0
  rp : List Purchase := []
  rs : SaleStats := initStats ""
deriving DecidableEq, Repr

/-- One atomic file operation of an in-flight commit, following the order of
operations in `savePurchase` and `updateStats`: read ledger, write appended
ledger, read statistics, write bumped statistics. -/
def stepCommit (st : StoreV1) (p : CommitProc) : StoreV1 × CommitProc :=
  match p.pc with
  | 0 => (st, { p with rp := st.purchases.getD [], pc := 1 })
  | 1 =>
    ({ st with purchases := some (p.rp ++ [mkNewPurchase p.input p.nowISO p.freshId]) },
     { p with pc := 2 })
  | 2 => (st, { p with rs := st.stats.getD (initStats p.nowISO), pc := 3 })
  | 3 =>
    let rec' := mkNewPurchase p.input p.nowISO p.freshId
    ({ st with stats := some (bumpStats p.rs rec'.coinAmount rec'.totalPrice p.nowISO) },
     { p with pc := 4 })
  | _ => (st, p)

/-- Interleave two in-flight commits under a boolean schedule: `true` steps the
first process, `false` the second. -/
def runSchedule (sched : List Bool) (st : StoreV1) (p1 p2 : CommitProc) :
    StoreV1 × CommitProc × CommitProc :=
  match sched with
  | [] => (st, p1, p2)
  | b :: rest =>
    if b then
      let r := stepCommit st p1
      runSchedule rest r.1 r.2 p2
    else
      let r := stepCommit st p2
      runSchedule rest r.1 p1 r.2

/-- Sum of the committed coin amounts of a ledger. -/
def ledgerCoins (ps : List Purchase) : ℚ := (ps.map (fun p => p.coinAmount)).sum

/-- Sum of the committed totals of a ledger. -/
def ledgerEur (ps : List Purchase) : ℚ := (ps.map (fun p => p.totalPrice)).sum

/-- The statistics of a variant-1 store agree with the fold over its ledger:
coins sold, EUR raised and purchase count. -/
def foldInvariant (st : StoreV1) (nowISO : String) : Prop :=
  (st.stats.getD (initStats nowISO)).totalCoinsSold = ledgerCoins (st.purchases.getD []) ∧
  (st.stats.getD (initStats nowISO)).totalRaisedEur = ledgerEur (st.purchases.getD []) ∧
  (st.stats.getD (initStats nowISO)).totalPurchases = (st.purchases.getD []).length

/-- The day-filtered ledger sum used by the daily limit, written as the plain
fold the specification describes. -/
def dailySum (ps : List Purchase) (today : String) : ℚ :=
  ledgerEur (ps.filter (fun p => today.data.isPrefixOf p.timestamp.data))

/-- The successful payload of a request outcome, discarding the error message. -/
def okValue {α : Type} (e : Except String α) : Option α :=
  match e with
  | .ok a => some a
  | .error _ => none

instance {ε α : Type} [DecidableEq ε] [DecidableEq α] : DecidableEq (Except ε α) := fun a b =>
  match a, b with
  | .ok x, .ok y =>
    if h : x = y then .isTrue (by rw [h])
    else .isFalse (by intro hc; cases hc; exact h rfl)
  | .ok _, .error _ => .isFalse (by intro hc; cases hc)
  | .error _, .ok _ => .isFalse (by intro hc; cases hc)
  | .error x, .error y =>
    if h : x = y then .isTrue (by rw [h])
    else .isFalse (by intro hc; cases hc; exact h rfl)

attribute [local semireducible] Rat.ofScientific Rat.mul Rat.inv Rat.add Rat.sub

/-! ## Helper lemmas -/

@[simp] theorem ledgerEur_append (ps : List Purchase) (p : Purchase) :
    ledgerEur (ps ++ [p]) = ledgerEur ps + p.totalPrice := by
  simp [ledgerEur]

@[simp] theorem ledgerCoins_append (ps : List Purchase) (p : Purchase) :
    ledgerCoins (ps ++ [p]) = ledgerCoins ps + p.coinAmount := by
  simp [ledgerCoins]

theorem foldl_add_jsOr0 (ps : List Purchase) (a : ℚ) :
    ps.foldl (fun sum p => sum + jsOr0 p.totalPrice) a = a + ledgerEur ps := by
  induction ps generalizing a with
  | nil => simp [ledgerEur]
  | cons p ps ih =>
    rw [List.foldl_cons, ih]
    simp [ledgerEur, jsOr0_eq]
    ring

theorem foldl_add_totalPrice (ps : List Purchase) (a : ℚ) :
    ps.foldl (fun sum p => sum + p.totalPrice) a = a + ledgerEur ps := by
  induction ps generalizing a with
  | nil => simp [ledgerEur]
  | cons p ps ih =>
    rw [List.foldl_cons, ih]
    simp [ledgerEur]
    ring

theorem savePurchaseV1_fst_purchases (i : PurchaseInput) (st : StoreV1) (nowISO freshId : String) :
    (savePurchaseV1 i st nowISO freshId).1.purchases =
      some (st.purchases.getD [] ++ [(savePurchaseV1 i st nowISO freshId).2]) := rfl

theorem savePurchaseV1_fst_stats (i : PurchaseInput) (st : StoreV1) (nowISO freshId : String) :
    (savePurchaseV1 i st nowISO freshId).1.stats =
      some (bumpStats (st.stats.getD (initStats nowISO))
        (savePurchaseV1 i st nowISO freshId).2.coinAmount
        (savePurchaseV1 i st nowISO freshId).2.totalPrice nowISO) := rfl

theorem savePurchaseV1_snd (i : PurchaseInput) (st : StoreV1) (nowISO freshId : String) :
    (savePurchaseV1 i st nowISO freshId).2 = mkNewPurchase i nowISO freshId := rfl

theorem mkNewPurchase_coinAmount (i : PurchaseInput) (nowISO freshId : String) :
    (mkNewPurchase i nowISO freshId).coinAmount = i.coinAmount := by
  simp [mkNewPurchase]

theorem mkNewPurchase_totalPrice (i : PurchaseInput) (nowISO freshId : String) :
    (mkNewPurchase i nowISO freshId).totalPrice = i.totalPrice := by
  simp [mkNewPurchase]

theorem bumpStats_coins (s : SaleStats) (c t : ℚ) (n : String) :
    (bumpStats s c t n).totalCoinsSold = s.totalCoinsSold + c := by
  simp [bumpStats]

theorem bumpStats_eur (s : SaleStats) (c t : ℚ) (n : String) :
    (bumpStats s c t n).totalRaisedEur = s.totalRaisedEur + t := by
  simp [bumpStats]

theorem bumpStats_count (s : SaleStats) (c t : ℚ) (n : String) :
    (bumpStats s c t n).totalPurchases = s.totalPurchases + 1 := by
  simp [bumpStats]

/-! ## C2: bonding-curve price on a cache miss -/

/-- C2: on a sale day with no cached price, the unit price computation returns
startPrice + (raisedSoFar / fundingGoal) * (endPrice - startPrice) whenever
fundingGoal > 0 and startPrice whenever fundingGoal ≤ 0; in particular, for
startPrice 0.02, endPrice 0.10 and fundingGoal 5500000, it returns 0.02 at
raisedSoFar 0, 0.06 at 2750000 and 0.10 at 5500000. -/
theorem bondingCurvePriceFormula (g s e r : ℚ) (today : String) :
    (0 < g → (getCachedPriceOrCalculate g s e r today none).1 = s + r / g * (e - s)) ∧
    (g ≤ 0 → (getCachedPriceOrCalculate g s e r today none).1 = s) ∧
    (getCachedPriceOrCalculate 5500000 0.02 0.1 0 today none).1 = 0.02 ∧
    (getCachedPriceOrCalculate 5500000 0.02 0.1 2750000 today none).1 = 0.06 ∧
    (getCachedPriceOrCalculate 5500000 0.02 0.1 5500000 today none).1 = 0.1 := by
  refine ⟨?_, ?_, ?_, ?_, ?_⟩
  · intro hg
    have hcond : g ≠ 0 ∧ 0 < g := ⟨hg.ne', hg⟩
    simp only [getCachedPriceOrCalculate, freshDailyPrice, jsOr0_eq, if_pos hcond]
    ring
  · intro hg
    have hcond : ¬ (g ≠ 0 ∧ 0 < g) := by
      rintro ⟨h1, h2⟩; linarith
    simp only [getCachedPriceOrCalculate, freshDailyPrice, jsOr0_eq, if_neg hcond]
  · norm_num [getCachedPriceOrCalculate, freshDailyPrice, jsOr0]
  · norm_num [getCachedPriceOrCalculate, freshDailyPrice, jsOr0]
  · norm_num [getCachedPriceOrCalculate, freshDailyPrice, jsOr0]

/-- Witness for C2 at fundingGoal 2, startPrice 1, endPrice 3, raisedSoFar 1. -/
theorem bondingCurvePriceFormula_witness :
    (getCachedPriceOrCalculate 2 1 3 1 "2025-01-01" none).1 = 1 + 1 / 2 * (3 - 1) :=
  (bondingCurvePriceFormula 2 1 3 1 "2025-01-01").1 (by norm_num)

/-! ## C4: same-day price stability -/

/-- C4: a second price computation on the same sale day returns exactly the
value computed and stored by the first, even when raisedSoFar changed between
the calls; the cache record is left untouched. -/
theorem sameDayPriceStable (g s e r1 r2 : ℚ) (today : String) (cache : Option PriceCache) :
    getCachedPriceOrCalculate g s e r2 today (getCachedPriceOrCalculate g s e r1 today cache).2 =
      getCachedPriceOrCalculate g s e r1 today cache := by
  rcases cache with _ | c
  · simp [getCachedPriceOrCalculate, freshDailyPrice]
  · by_cases h : c.date = today
    · simp [getCachedPriceOrCalculate, h]
    · simp [getCachedPriceOrCalculate, freshDailyPrice, h]

/-! ## C10: lower price bound (corrected) -/

/-- Counterexample to C10 as stated: a negative raisedSoFar is passed through
the `|| 0` coercion unchanged (negative numbers are truthy), so with
fundingGoal 5500000, startPrice 0.02, endPrice 0.10 and raisedSoFar -5500000
the uncached price is -0.06, strictly below the start price, and differs from
the price at raisedSoFar 0. -/
theorem negativeRaisedBreaksLowerBound :
    (getCachedPriceOrCalculate 5500000 0.02 0.1 (-5500000) "2025-01-01" none).1 = -0.06 ∧
    (getCachedPriceOrCalculate 5500000 0.02 0.1 (-5500000) "2025-01-01" none).1 < 0.02 ∧
    (getCachedPriceOrCalculate 5500000 0.02 0.1 (-5500000) "2025-01-01" none).1 ≠
      (getCachedPriceOrCalculate 5500000 0.02 0.1 0 "2025-01-01" none).1 := by
  refine ⟨by decide, by decide, by decide⟩

/-- C10 as amended: only falsy raisedSoFar values (absent, hence 0) are coerced
to zero; a negative raisedSoFar is used as-is and can push the price below the
start price, but for every raisedSoFar ≥ 0, fundingGoal > 0 and
startPrice ≤ endPrice the uncached price is at least the start price. -/
theorem priceBoundedBelowForNonnegRaised (g s e r : ℚ) (today : String)
    (hg : 0 < g) (hse : s ≤ e) (hr : 0 ≤ r) :
    s ≤ (getCachedPriceOrCalculate g s e r today none).1 := by
  have hcond : g ≠ 0 ∧ 0 < g := ⟨hg.ne', hg⟩
  simp only [getCachedPriceOrCalculate, freshDailyPrice, jsOr0_eq, if_pos hcond]
  have h1 : 0 ≤ r / g * (e - s) := by
    apply mul_nonneg (div_nonneg hr hg.le)
    linarith
  linarith

/-- Witness for the amended C10 at fundingGoal 1, startPrice 1, endPrice 2,
raisedSoFar 5. -/
theorem priceBoundedBelowForNonnegRaised_witness :
    (1 : ℚ) ≤ (getCachedPriceOrCalculate 1 1 2 5 "2025-01-01" none).1 :=
  priceBoundedBelowForNonnegRaised 1 1 2 5 "2025-01-01" (by norm_num) (by norm_num) (by norm_num)

/-! ## C8: selling-price rounding -/

/-- C8: for every unit price and coin amount, the selling-price computation
returns a total equal to the product rounded to two decimal places under
round-half-away-from-zero, including products landing on exact .005
boundaries (shown at 0.125, -0.125 and 2.01 * 2.5 = 5.025). -/
theorem sellingPriceRoundHalfAwayFromZero (u a : ℚ) :
    (sellingPriceOf u (some a)).totalPrice = round2 (u * a) ∧
    (sellingPriceOf 0.125 (some 1)).totalPrice = 0.13 ∧
    (sellingPriceOf (-0.125) (some 1)).totalPrice = -0.13 ∧
    (sellingPriceOf 2.01 (some 2.5)).totalPrice = 5.03 := by
  refine ⟨?_, by decide, by decide, by decide⟩
  simp [sellingPriceOf, toFixed2_eq_round2]

/-! ## C5: daily limit (corrected) -/

/-- A minimal committed ledger entry carrying a total and a timestamp, used in
the daily-limit scenarios. -/
def ledgerEntry (t : ℚ) (ts : String) : Purchase :=
  { id := "e", walletAddress := none, walletType := "unknown", buyerEmail := none,
    coinAmount := 0, totalPrice := t, paymentMethod := "bank", paypalOrderId := none,
    timestamp := ts, status := "completed" }

/-- A store whose same-day purchases sum to 499999.99. -/
def capStore1 : StoreV1 :=
  { purchases := some [ledgerEntry 499999.99 "2025-01-01T09:00:00.000Z"] }

/-- A store whose same-day purchases sum to 500000.00. -/
def capStore2 : StoreV1 :=
  { purchases := some [ledgerEntry 500000 "2025-01-01T09:00:00.000Z"] }

/-- Counterexample to C5 as stated: with an existing same-day sum of 499999.99
a new purchase of 0.02 is claimed to be allowed, but 499999.99 + 0.02 exceeds
the 500000 cap, so `checkDailyLimit` rejects it. -/
theorem dailyLimitBoundaryScenarioFails :
    (checkDailyLimit 0.02 capStore1 "2025-01-01").1 = false := by decide

/-- C5 as amended: `checkDailyLimit` allows a candidate exactly when the sum of
the totals of ledger entries timestamped on the pricing-engine day plus the
candidate does not exceed the fixed 500000 cap; consequently, on an existing
same-day sum of 499999.99 a total of 0.01 is allowed but 0.02 is rejected, and
on an existing sum of 500000.00 a total of 0.02 is rejected. -/
theorem dailyLimitCharacterization (t : ℚ) (st : StoreV1) (today : String) :
    ((checkDailyLimit t st today).1 = true ↔
      dailySum (st.purchases.getD []) today + t ≤ 500000) ∧
    (checkDailyLimit 0.01 capStore1 "2025-01-01").1 = true ∧
    (checkDailyLimit 0.02 capStore1 "2025-01-01").1 = false ∧
    (checkDailyLimit 0.02 capStore2 "2025-01-01").1 = false := by
  refine ⟨?_, by decide, by decide, by decide⟩
  simp only [checkDailyLimit, dailySum, foldl_add_jsOr0, foldl_add_totalPrice, jsOr0_eq,
    zero_add, decide_eq_true_eq]

/-! ## C3: the fold invariant is preserved by savePurchase -/

/-- C3: when the statistics equal the fold over the ledger, a sequentially
executed `savePurchase` appends exactly one record, keeps the statistics equal
to the fold, and bumps coins sold, EUR raised and the count by exactly the
committed record. -/
theorem savePurchasePreservesFoldInvariant (i : PurchaseInput) (st : StoreV1)
    (nowISO freshId : String) (h : foldInvariant st nowISO) :
    foldInvariant (savePurchaseV1 i st nowISO freshId).1 nowISO ∧
    (savePurchaseV1 i st nowISO freshId).1.purchases.getD [] =
      st.purchases.getD [] ++ [(savePurchaseV1 i st nowISO freshId).2] ∧
    ((savePurchaseV1 i st nowISO freshId).1.stats.getD (initStats nowISO)).totalCoinsSold =
      (st.stats.getD (initStats nowISO)).totalCoinsSold +
        (savePurchaseV1 i st nowISO freshId).2.coinAmount ∧
    ((savePurchaseV1 i st nowISO freshId).1.stats.getD (initStats nowISO)).totalRaisedEur =
      (st.stats.getD (initStats nowISO)).totalRaisedEur +
        (savePurchaseV1 i st nowISO freshId).2.totalPrice ∧
    ((savePurchaseV1 i st nowISO freshId).1.stats.getD (initStats nowISO)).totalPurchases =
      (st.stats.getD (initStats nowISO)).totalPurchases + 1 := by
  obtain ⟨hc, he, hn⟩ := h
  refine ⟨⟨?_, ?_, ?_⟩, ?_, ?_, ?_, ?_⟩ <;>
    simp [savePurchaseV1_fst_purchases, savePurchaseV1_fst_stats, bumpStats_coins,
      bumpStats_eur, bumpStats_count, hc, he, hn, jsOr0_eq]

/-- Witness for C3 on an empty store satisfying the fold invariant. -/
theorem savePurchasePreservesFoldInvariant_witness :
    foldInvariant (savePurchaseV1
      { walletAddress := some "w", coinAmount := 10, totalPrice := 1 }
      { stats := some (initStats "n"), purchases := some [] } "n" "f").1 "n" :=
  (savePurchasePreservesFoldInvariant
    { walletAddress := some "w", coinAmount := 10, totalPrice := 1 }
    { stats := some (initStats "n"), purchases := some [] } "n" "f"
    ⟨by decide, by decide, by decide⟩).1

/-! ## C9: lost updates (corrected) -/

theorem runSequential_length (inputs : List PurchaseInput) (st : StoreV1)
    (nowISO freshId : String) :
    ((runSequential inputs st nowISO freshId).purchases.getD []).length =
      (st.purchases.getD []).length + inputs.length := by
  induction inputs generalizing st with
  | nil => simp [runSequential]
  | cons i rest ih =>
    have hstep := ih (savePurchaseV1 i st nowISO freshId).1
    simp only [runSequential, List.foldl_cons] at hstep ⊢
    rw [hstep, savePurchaseV1_fst_purchases]
    simp
    ring

theorem runSequential_coins (inputs : List PurchaseInput) (st : StoreV1)
    (nowISO freshId : String) :
    ((runSequential inputs st nowISO freshId).stats.getD (initStats nowISO)).totalCoinsSold =
      (st.stats.getD (initStats nowISO)).totalCoinsSold +
        (inputs.map (fun i => i.coinAmount)).sum := by
  induction inputs generalizing st with
  | nil => simp [runSequential]
  | cons i rest ih =>
    have hstep := ih (savePurchaseV1 i st nowISO freshId).1
    simp only [runSequential, List.foldl_cons] at hstep ⊢
    rw [hstep, savePurchaseV1_fst_stats]
    simp [bumpStats_coins, savePurchaseV1_snd, mkNewPurchase_coinAmount, jsOr0_eq]
    ring

theorem runSequential_eur (inputs : List PurchaseInput) (st : StoreV1)
    (nowISO freshId : String) :
    ((runSequential inputs st nowISO freshId).stats.getD (initStats nowISO)).totalRaisedEur =
      (st.stats.getD (initStats nowISO)).totalRaisedEur +
        (inputs.map (fun i => i.totalPrice)).sum := by
  induction inputs generalizing st with
  | nil => simp [runSequential]
  | cons i rest ih =>
    have hstep := ih (savePurchaseV1 i st nowISO freshId).1
    simp only [runSequential, List.foldl_cons] at hstep ⊢
    rw [hstep, savePurchaseV1_fst_stats]
    simp [bumpStats_eur, savePurchaseV1_snd, mkNewPurchase_totalPrice, jsOr0_eq]
    ring

theorem runSequential_count (inputs : List PurchaseInput) (st : StoreV1)
    (nowISO freshId : String) :
    ((runSequential inputs st nowISO freshId).stats.getD (initStats nowISO)).totalPurchases =
      (st.stats.getD (initStats nowISO)).totalPurchases + inputs.length := by
  induction inputs generalizing st with
  | nil => simp [runSequential]
  | cons i rest ih =>
    have hstep := ih (savePurchaseV1 i st nowISO freshId).1
    simp only [runSequential, List.foldl_cons] at hstep ⊢
    rw [hstep, savePurchaseV1_fst_stats]
    simp [bumpStats_count]
    ring

/-- C9 as amended: when the N commits execute sequentially (each savePurchase
runs to completion before the next starts), the ledger gains exactly N
entries and the statistics gain exactly the sums of the committed amounts and
totals and the count N.  The commit is not atomic, so interleaved executions
can lose entries, as the counterexample shows. -/
theorem sequentialCommitsMatchLedger (inputs : List PurchaseInput) (st : StoreV1)
    (nowISO freshId : String) :
    ((runSequential inputs st nowISO freshId).purchases.getD []).length =
      (st.purchases.getD []).length + inputs.length ∧
    ((runSequential inputs st nowISO freshId).stats.getD (initStats nowISO)).totalCoinsSold =
      (st.stats.getD (initStats nowISO)).totalCoinsSold +
        (inputs.map (fun i => i.coinAmount)).sum ∧
    ((runSequential inputs st nowISO freshId).stats.getD (initStats nowISO)).totalRaisedEur =
      (st.stats.getD (initStats nowISO)).totalRaisedEur +
        (inputs.map (fun i => i.totalPrice)).sum ∧
    ((runSequential inputs st nowISO freshId).stats.getD (initStats nowISO)).totalPurchases =
      (st.stats.getD (initStats nowISO)).totalPurchases + inputs.length :=
  ⟨runSequential_length inputs st nowISO freshId,
   runSequential_coins inputs st nowISO freshId,
   runSequential_eur inputs st nowISO freshId,
   runSequential_count inputs st nowISO freshId⟩

/-- First commit of the interleaving counterexample. -/
def raceInput1 : PurchaseInput := { walletAddress := some "w1", coinAmount := 10, totalPrice := 1 }

/-- Second commit of the interleaving counterexample. -/
def raceInput2 : PurchaseInput := { walletAddress := some "w2", coinAmount := 20, totalPrice := 2 }

/-- The initial store of the interleaving counterexample: empty ledger, zeroed
statistics. -/
def raceStore : StoreV1 := { stats := some (initStats "n"), purchases := some [] }

/-- Counterexample to C9 as stated: interleaving the file operations of two
concurrent commits (both read the empty ledger before either writes) completes
both commits yet leaves a single ledger entry, while the same two commits run
sequentially leave two; the second write overwrites the first, a lost update. -/
theorem interleavedCommitsLoseEntry :
    (runSchedule [true, false, true, true, true, false, false, false] raceStore
      { input := raceInput1, nowISO := "n", freshId := "a" }
      { input := raceInput2, nowISO := "n", freshId := "b" }).2.1.pc = 4 ∧
    (runSchedule [true, false, true, true, true, false, false, false] raceStore
      { input := raceInput1, nowISO := "n", freshId := "a" }
      { input := raceInput2, nowISO := "n", freshId := "b" }).2.2.pc = 4 ∧
    ((runSchedule [true, false, true, true, true, false, false, false] raceStore
      { input := raceInput1, nowISO := "n", freshId := "a" }
      { input := raceInput2, nowISO := "n", freshId := "b" }).1.purchases.getD []).length = 1 ∧
    ((runSequential [raceInput1, raceInput2] raceStore "n" "a").purchases.getD []).length = 2 := by
  refine ⟨by decide, by decide, by decide, by decide⟩

/-! ## Shape lemmas for the capture flow -/

theorem sellingPriceOf_intAmount (u : ℚ) (n : ℤ) (hn : n ≠ 0) :
    (sellingPriceOf u (some (n : ℚ))).coinAmount = (n : ℚ) := by
  have h0 : ((n : ℚ)) ≠ 0 := Int.cast_ne_zero.mpr hn
  simp [sellingPriceOf, optOr0, jsOr0, h0, Rat.den_intCast]

theorem validatePurchaseV1_snd (c : Option ℚ) (w : Option String) (st : StoreV1)
    (today : String) (now : ℚ) :
    (validatePurchaseV1 c w st today now).2 = (calculateCoinPriceV1 st today).2 := rfl

/-- A purchase flow that succeeds appends exactly one record to the ledger and
commits a coin amount produced by `sellingPriceOf` on the requested amount. -/
theorem processPurchaseV1_ok_shape (w : Option String) (c : Option ℚ)
    (pm be wt po : Option String) (st : StoreV1) (today : String) (now : ℚ)
    (nowISO freshId : String) (r : StoreV1 × Purchase × Pricing)
    (h : processPurchaseV1 w c pm be wt po st today now nowISO freshId = .ok r) :
    r.1.purchases.getD [] = st.purchases.getD [] ++ [r.2.1] ∧
    ∃ u, r.2.1.coinAmount = jsOr0 ((sellingPriceOf u c).coinAmount) := by
  simp only [processPurchaseV1] at h
  split at h
  · injection h with h'
    subst h'
    constructor
    · rw [savePurchaseV1_fst_purchases]
      rfl
    · refine ⟨(calculateCoinPriceV1 (validatePurchaseV1 c w st today now).2 today).1, ?_⟩
      rw [savePurchaseV1_snd, mkNewPurchase_coinAmount, jsOr0_eq]
      rfl
  · simp at h

/-! ## Concrete capture fixtures -/

/-- The capture instant used by the concrete capture runs. -/
def nowISO1 : String := "2025-01-01T10:00:00.000Z"

/-- A capture request body carrying order id and wallet only. -/
def bodyA : CaptureBody := { paypal_order_id := some "OID", wallet_address := some "0xWALLET" }

/-- A completed capture response whose metadata records 5 coins. -/
def capA : CaptureResponse :=
  { status := some "COMPLETED", purchaseUnits := [{ payments := true, customId := some 5 }] }

/-- A capture response with no status field but a payments object present, and
metadata recording 7 coins. -/
def capAbsent : CaptureResponse :=
  { purchaseUnits := [{ payments := true, customId := some 7 }] }

/-- A capture response reporting a non-sentinel status. -/
def capPending : CaptureResponse := { status := some "PENDING" }

/-- A fresh variant-1 store: zeroed statistics, empty ledger, default config,
no price cache. -/
def stA : StoreV1 := { stats := some (initStats "t0"), purchases := some [] }

/-- A committed entry of 500000 EUR earlier on the capture day. -/
def overEntry : Purchase :=
  { id := "q", walletAddress := none, walletType := "unknown", buyerEmail := none,
    coinAmount := 100, totalPrice := 500000, paymentMethod := "bank", paypalOrderId := none,
    timestamp := "2025-01-01T09:00:00.000Z", status := "completed" }

/-- A store whose capture-day ledger already sits exactly at the daily cap. -/
def stOver : StoreV1 := { stats := some (initStats "t0"), purchases := some [overEntry] }

/-- The variant-2 configuration of the concrete capture runs. -/
def cfgB : ConfigV2 :=
  { coinPrice := 0.05, presaleEndDate := 100, minimumPurchase := 1, maximumPurchase := 1000000 }

/-- A fresh variant-2 store. -/
def stB : StoreV2 := { config := some cfgB, stats := some (initStats "t0"), purchases := some [] }

/-- A variant-2 capture request asking for 100 coins. -/
def bodyB : CaptureBody :=
  { paypal_order_id := some "O", wallet_address := some "W", coin_amount := some 100 }

/-- A completed capture response whose metadata records 100 coins. -/
def jsonB : CaptureResponse :=
  { status := some "COMPLETED", purchaseUnits := [{ payments := true, customId := some 100 }] }

/-! ## C1: metadata-recovered coin amount (corrected) -/

/-- C1 as amended, which holds of variant 1 only: its capture handler ignores
any client-supplied coin amount entirely (two requests differing only in that
field produce identical outcomes), and every committed purchase carries the
coin amount recovered from the captured-order metadata. -/
theorem captureCommitsMetadataAmountV1 (body : CaptureBody) (x : Option ℤ)
    (captured : CaptureResponse) (st : StoreV1) (today : String) (now : ℚ)
    (nowISO freshId : String) :
    captureOrderV1 { body with coin_amount := x } captured st today now nowISO freshId =
      captureOrderV1 body captured st today now nowISO freshId ∧
    (∀ q, (okValue (captureOrderV1 body captured st today now nowISO freshId)).map
        (fun r => r.2.coinAmount) = some q →
      ∃ n, recoverCoinAmount captured = some n ∧ q = (n : ℚ)) := by
  constructor
  · cases body; rfl
  · intro q hq
    cases hH : captureOrderV1 body captured st today now nowISO freshId with
    | error e => rw [hH] at hq; simp [okValue] at hq
    | ok r =>
      rw [hH] at hq
      simp only [okValue, Option.map_some'] at hq
      injection hq with hq'
      simp only [captureOrderV1] at hH
      split at hH
      · simp at hH
      · split at hH
        · split at hH
          next n heq =>
            split at hH
            · simp at hH
            next hn =>
              split at hH
              next r' hproc =>
                injection hH with h'
                obtain ⟨-, u, hu⟩ := processPurchaseV1_ok_shape _ _ _ _ _ _ _ _ _ _ _ _ hproc
                refine ⟨n, heq, ?_⟩
                rw [← hq', ← h', hu, sellingPriceOf_intAmount u n hn, jsOr0_eq]
              next e heq2 => simp at hH
          next heq => simp at hH
        · simp at hH

/-- Witness for C1: on a concrete completed capture the handler outcome is
unchanged when the client also sends a coin amount of 999, and the committed
amount of 5 coins is the amount recovered from the order metadata. -/
theorem captureCommitsMetadataAmountV1_witness :
    (captureOrderV1 { bodyA with coin_amount := some 999 } capA stA "2025-01-01" 0 nowISO1 "id1" =
      captureOrderV1 bodyA capA stA "2025-01-01" 0 nowISO1 "id1") ∧
    (∃ n, recoverCoinAmount capA = some n ∧ (5 : ℚ) = (n : ℚ)) :=
  ⟨(captureCommitsMetadataAmountV1 bodyA (some 999) capA stA "2025-01-01" 0 nowISO1 "id1").1,
   (captureCommitsMetadataAmountV1 bodyA (some 999) capA stA "2025-01-01" 0 nowISO1 "id1").2
     5 (by decide)⟩

/-- Counterexample to C1 as stated: the variant-2 capture handler commits the
client-supplied coin amount, so two capture requests for the same captured
order (whose metadata records 100 coins) that differ only in the
client-supplied coin_amount commit 100 and 200 coins respectively. -/
theorem captureCommitsClientAmountV2 :
    (okValue (captureOrderV2 bodyB jsonB 201 stB 0 "ts" "id")).map
      (fun r => r.2.coinAmount) = some 100 ∧
    (okValue (captureOrderV2 { bodyB with coin_amount := some 200 } jsonB 201 stB 0 "ts" "id")).map
      (fun r => r.2.coinAmount) = some 200 ∧
    recoverCoinAmount jsonB = some 100 := by
  refine ⟨by decide, by decide, by decide⟩

/-! ## C6: no daily-limit check in the capture flow (corrected) -/

/-- C6 as amended: the capture flow re-runs validation and pricing with the
recovered amount but performs no daily-limit check; whenever it succeeds,
committing a total the daily limit would reject, the ledger still grows by
one entry instead of the purchase being rejected. -/
theorem captureIgnoresDailyLimit (body : CaptureBody) (captured : CaptureResponse)
    (st : StoreV1) (today : String) (now : ℚ) (nowISO freshId : String) (L : ℕ) (t : ℚ)
    (hok : (okValue (captureOrderV1 body captured st today now nowISO freshId)).map
      (fun r => ((r.1.purchases.getD []).length, r.2.totalPrice)) = some (L, t))
    (hover : (checkDailyLimit t st today).1 = false) :
    L = (st.purchases.getD []).length + 1 := by
  cases hH : captureOrderV1 body captured st today now nowISO freshId with
  | error e => rw [hH] at hok; simp [okValue] at hok
  | ok r =>
    rw [hH] at hok
    simp only [okValue, Option.map_some'] at hok
    injection hok with hok'
    obtain ⟨h1, h2⟩ := Prod.mk.injEq .. |>.mp hok'
    simp only [captureOrderV1] at hH
    split at hH
    · simp at hH
    · split at hH
      · split at hH
        next n heq =>
          split at hH
          · simp at hH
          next hn =>
            split at hH
            next r' hproc =>
              injection hH with h'
              obtain ⟨happ, -⟩ := processPurchaseV1_ok_shape _ _ _ _ _ _ _ _ _ _ _ _ hproc
              rw [← h1, ← h', happ]
              simp
            next e heq2 => simp at hH
        next heq => simp at hH
      · simp at hH

/-- Witness for the amended C6: from the at-cap store the capture succeeds and
grows the ledger from one to two entries, although the daily limit rejects the
committed 0.13 total. -/
theorem captureIgnoresDailyLimit_witness :
    (2 : ℕ) = (stOver.purchases.getD []).length + 1 :=
  captureIgnoresDailyLimit bodyA capA stOver "2025-01-01" 0 nowISO1 "id1" 2 0.13
    (by decide) (by decide)

/-- Counterexample to C6 as stated: with the same-day ledger already at the
500000 cap, the capture commits a 0.13 total that `checkDailyLimit` rejects,
and the ledger grows to two entries instead of the purchase being rejected. -/
theorem captureOverCapCommits :
    (checkDailyLimit 0.13 stOver "2025-01-01").1 = false ∧
    (okValue (captureOrderV1 bodyA capA stOver "2025-01-01" 0 nowISO1 "id1")).map
      (fun r => ((r.1.purchases.getD []).length, r.2.totalPrice)) = some (2, 0.13) := by
  refine ⟨by decide, by decide⟩

/-! ## C7: the success sentinel (corrected) -/

/-- C7 as amended: a capture response whose status field is present but is any
string other than "COMPLETED" is always treated as failure by the variant-1
handler, and the variant-2 handler commits only on HTTP 201 with the exact
"COMPLETED" status; however (see the counterexample) variant 1 treats an
absent status with a payments object present as success. -/
theorem statusSentinelCheck (body : CaptureBody) (captured : CaptureResponse)
    (st : StoreV1) (today : String) (now : ℚ) (nowISO freshId : String) (s : String)
    (bodyv2 : CaptureBody) (json : CaptureResponse) (code : ℕ) (stv2 : StoreV2)
    (nowv2 : ℚ) (nowISOv2 freshIdv2 : String) :
    (captured.status = some s → s ≠ "COMPLETED" →
      ∃ e, captureOrderV1 body captured st today now nowISO freshId = Except.error e) ∧
    ((okValue (captureOrderV2 bodyv2 json code stv2 nowv2 nowISOv2 freshIdv2)).isSome = true →
      code = 201 ∧ json.status = some "COMPLETED") := by
  constructor
  · intro hst hs
    have hds : deriveStatus captured = some s := by simp [deriveStatus, hst]
    rcases hpo : body.paypal_order_id with _ | oid
    · exact ⟨"paypal_order_id required", by simp [captureOrderV1, hpo]⟩
    · refine ⟨"PayPal-Zahlung nicht abgeschlossen", ?_⟩
      simp [captureOrderV1, hpo, hds, hs]
  · intro hok
    cases hH : captureOrderV2 bodyv2 json code stv2 nowv2 nowISOv2 freshIdv2 with
    | error e => rw [hH] at hok; simp [okValue] at hok
    | ok r2 =>
      simp only [captureOrderV2] at hH
      split at hH
      · split at hH
        · simp at hH
        · split at hH
          next hcond => exact hcond
          next => simp at hH
      · simp at hH

/-- Witness for the amended C7: a "PENDING" status fails on variant 1, and a
concrete successful variant-2 capture indeed carried HTTP 201 and status
"COMPLETED". -/
theorem statusSentinelCheck_witness :
    (∃ e, captureOrderV1 bodyA capPending stA "2025-01-01" 0 nowISO1 "id1" = Except.error e) ∧
    ((201 : ℕ) = 201 ∧ jsonB.status = some "COMPLETED") :=
  ⟨(statusSentinelCheck bodyA capPending stA "2025-01-01" 0 nowISO1 "id1" "PENDING"
      bodyB jsonB 201 stB 0 "ts" "id").1 rfl (by decide),
   (statusSentinelCheck bodyA capPending stA "2025-01-01" 0 nowISO1 "id1" "PENDING"
      bodyB jsonB 201 stB 0 "ts" "id").2 (by decide)⟩

/-- Counterexample to C7 as stated: a capture response with an absent status
field and a payments object present is treated as success by variant 1 and a
purchase is committed. -/
theorem absentStatusCommits :
    capAbsent.status = none ∧
    (okValue (captureOrderV1 bodyA capAbsent stA "2025-01-01" 0 nowISO1 "id1")).map
      (fun r => (r.1.purchases.getD []).length) = some 1 := by
  refine ⟨rfl, by decide⟩

end Bloxxer
